import Mathlib

/-!
# Interactive 2D IFS fractal generator: the `FractalGenerator` class of `src/main.cpp`

The development embeds the class `FractalGenerator` (a `std::vector<Rectangle>` with three
mutators and the const member `generateFractal`) and settles the claims made about it.

Modelling conventions.

* `float` scalars are elements of an arbitrary commutative ring `K` (exact arithmetic, rounding
  is not modelled); `cos` and `sin` of `<cmath>` are taken as parameters (`Trig`).
* `std::vector<T>` is `List T`; `int` is `Int`.
* A C++ call either returns, leaving the object in a new state, or has undefined behaviour
  (an iterator or subscript outside the vector). `Outcome` records which.
* The glm operations that `generateFractal` calls are library code outside `src/`;
  `generateFractal` takes them as a parameter (`Glm`). `glmMat2` instantiates the parameter with
  the type the source declares, `glm::mat2x2`, and its product with a `glm::vec2`; the default
  value of the matrix and the three builders stay parameters (`Mat2Builders`).
-/

set_option autoImplicit false

namespace IFS

/-! ## Data model -/

/-- The type `glm::vec2`: two scalar components. -/
structure Vec2 (K : Type) where
  x : K
  y : K
deriving DecidableEq, Repr

/-- The struct `Rectangle` of `main.cpp`: one map of the iterated function system. -/
structure Rectangle (K : Type) where
  center : Vec2 K
  size : Vec2 K
  angle : K
deriving DecidableEq, Repr

/-- A value-initialised `Rectangle`, as produced by `std::vector::resize`: every scalar is zero. -/
def Rectangle.zero (K : Type) [Zero K] : Rectangle K :=
  { center := ⟨0, 0⟩, size := ⟨0, 0⟩, angle := 0 }

/-- The class `FractalGenerator`: its only data member is `rectangles`. -/
structure FractalGenerator (K : Type) where
  rectangles : List (Rectangle K)
deriving DecidableEq, Repr

/-- Failure kinds named by the specification. The class itself declares none. -/
inductive Failure where
  | IndexOutOfRange
deriving DecidableEq, Repr

/-- What a call of a mutating member function does: it returns with the object in a new state,
it reports a failure and leaves the object in some state, or its behaviour is undefined.
The member functions of `FractalGenerator` are `void` and contain no `throw`, so the embedded
functions only ever produce `returned` or `undefinedBehaviour`; `failed` exists so that a
claimed failure result can be written down and compared. -/
inductive Outcome (σ : Type) where
  | returned (s : σ)
  | failed (e : Failure) (s : σ)
  | undefinedBehaviour
deriving DecidableEq, Repr

/-! ## The vector operations used by the class -/

/-- The call `std::vector::resize(n)`: keep the first `n` elements, pad with value-initialised
elements `d` up to length `n`. -/
def vectorResize {α : Type} (d : α) (n : Nat) (xs : List α) : List α :=
  xs.take n ++ List.replicate (n - xs.length) d

/-! ## Constructor and mutators -/

/-- The constructor `FractalGenerator::FractalGenerator()`: `rectangles.resize(5)` on the
empty vector. -/
def FractalGenerator.new (K : Type) [Zero K] : FractalGenerator K :=
  { rectangles := vectorResize (Rectangle.zero K) 5 [] }

/-- The member `addRectangle`: `rectangles.push_back(rect)`. -/
def FractalGenerator.addRectangle {K : Type} (g : FractalGenerator K) (rect : Rectangle K) :
    Outcome (FractalGenerator K) :=
  .returned { rectangles := g.rectangles ++ [rect] }

/-- The member `removeRectangle`: `rectangles.erase(rectangles.begin() + index)`.
There is no bounds check; `erase` requires a dereferenceable iterator, so any index outside
`[0, size)` is undefined behaviour. -/
def FractalGenerator.removeRectangle {K : Type} (g : FractalGenerator K) (index : Int) :
    Outcome (FractalGenerator K) :=
  if 0 ≤ index ∧ index < (g.rectangles.length : Int) then
    .returned { rectangles := g.rectangles.eraseIdx index.toNat }
  else
    .undefinedBehaviour

/-- The member `setRectangle`: `rectangles[index] = rect`.
There is no bounds check; `operator[]` outside `[0, size)` is undefined behaviour. -/
def FractalGenerator.setRectangle {K : Type} (g : FractalGenerator K) (index : Int)
    (rect : Rectangle K) : Outcome (FractalGenerator K) :=
  if 0 ≤ index ∧ index < (g.rectangles.length : Int) then
    .returned { rectangles := g.rectangles.set index.toNat rect }
  else
    .undefinedBehaviour

/-! ## Generation -/

/-- The glm matrix type and operations called by `generateFractal`:
`mat0` is the default-constructed `glm::mat2x2 transform;`, `rotate`, `scale`, `translate` are
`glm::rotate`, `glm::scale`, `glm::translate`, and `mulVec` is `transform * point`. -/
structure Glm (K : Type) where
  Mat : Type
  mat0 : Mat
  rotate : Mat → K → Mat
  scale : Mat → Vec2 K → Mat
  translate : Mat → Vec2 K → Mat
  mulVec : Mat → Vec2 K → Vec2 K

/-- Lines 43-46 of `main.cpp`: the matrix built for one rectangle. -/
def buildTransform {K : Type} (G : Glm K) (rect : Rectangle K) : G.Mat :=
  let transform := G.mat0
  let transform := G.rotate transform rect.angle
  let transform := G.scale transform rect.size
  let transform := G.translate transform rect.center
  transform

/-- Lines 43-49: the body of the loop over `rectangles`. The transform of `rect` replaces
every point of the working set by `transform * point`. -/
def applyRectangle {K : Type} (G : Glm K) (points : List (Vec2 K)) (rect : Rectangle K) :
    List (Vec2 K) :=
  points.map (fun point => G.mulVec (buildTransform G rect) point)

/-- Lines 42-50: one round, the loop `for (const auto& rect : rectangles)` in stored order. -/
def generateRound {K : Type} (G : Glm K) (rectangles : List (Rectangle K))
    (points : List (Vec2 K)) : List (Vec2 K) :=
  rectangles.foldl (applyRectangle G) points

/-- Lines 41-51: the loop `for (int i = 0; i < numIterations; i++)` run on a working set
`points`. A non-positive `numIterations` runs no round. -/
def generateLoop {K : Type} (G : Glm K) (rectangles : List (Rectangle K))
    (numIterations : Int) (points : List (Vec2 K)) : List (Vec2 K) :=
  Nat.iterate (generateRound G rectangles) numIterations.toNat points

/-- The member `generateFractal`: the working set `points` is declared empty (line 40), the
rounds run, and `points` is returned. -/
def FractalGenerator.generateFractal {K : Type} (G : Glm K) (g : FractalGenerator K)
    (numIterations : Int) : List (Vec2 K) :=
  generateLoop G g.rectangles numIterations []

/-! ## The point maps named by the specification -/

/-- Modelled from the spec: the glm header declaring `glm::mat2x2`, the type of `transform` on
line 43, is not under `src/`. Section 3 calls the derived value a 2×2 transform matrix; it is
stored as its two columns `c0` and `c1`. -/
structure Mat2 (K : Type) where
  c0 : Vec2 K
  c1 : Vec2 K
deriving DecidableEq, Repr

/-- Modelled from the spec: the glm operator behind `transform * point` on line 48 is not under
`src/`. Section 4.1 applies the transform to a point as the product `M · p` of the matrix with
the column `p`; for a 2×2 matrix that is `x · c0 + y · c1`. -/
def Mat2.mulVec {K : Type} [CommRing K] (m : Mat2 K) (v : Vec2 K) : Vec2 K :=
  ⟨m.c0.x * v.x + m.c1.x * v.y, m.c0.y * v.x + m.c1.y * v.y⟩

/-- A generator holding three distinct rectangles, used to instantiate the statements. -/
def sampleGenerator : FractalGenerator ℚ :=
  { rectangles := [⟨⟨1, 0⟩, ⟨1, 1⟩, 0⟩, ⟨⟨2, 0⟩, ⟨2, 2⟩, 0⟩, ⟨⟨3, 0⟩, ⟨3, 3⟩, 0⟩] }

/-- A rectangle different from those of `sampleGenerator`. -/
def sampleRectangle : Rectangle ℚ :=
  ⟨⟨7, 7⟩, ⟨7, 7⟩, 7⟩

/-- The one-map collection of the scenario: center `(1/2, 0)`, size `(1/2, 1/2)`, angle `0`. -/
def scenarioGenerator (K : Type) [Field K] : FractalGenerator K :=
  { rectangles := [⟨⟨1/2, 0⟩, ⟨1/2, 1/2⟩, 0⟩] }

/-- Outside `[0, size)` the guard of `removeRectangle` is false. -/
theorem removeRectangle_out_of_range {K : Type} (g : FractalGenerator K) (index : Int)
    (h : index < 0 ∨ (g.rectangles.length : Int) ≤ index) :
    g.removeRectangle index = Outcome.undefinedBehaviour := by
  unfold FractalGenerator.removeRectangle
  rw [if_neg]
  omega

/-- Outside `[0, size)` the guard of `setRectangle` is false. -/
theorem setRectangle_out_of_range {K : Type} (g : FractalGenerator K) (index : Int)
    (rect : Rectangle K) (h : index < 0 ∨ (g.rectangles.length : Int) ≤ index) :
    g.setRectangle index rect = Outcome.undefinedBehaviour := by
  unfold FractalGenerator.setRectangle
  rw [if_neg]
  omega

/-- C4, as stated, fails: on the default-constructed generator (5 rectangles)
`removeRectangle(5)`, the case `index == size`, is an `erase` at the end iterator. The call
has undefined behaviour; it is not a reported `IndexOutOfRange` that leaves the collection
unmodified. -/
theorem C4_counterexample :
    (FractalGenerator.new ℚ).rectangles.length = 5 ∧
    (FractalGenerator.new ℚ).removeRectangle 5 = Outcome.undefinedBehaviour ∧
    (FractalGenerator.new ℚ).removeRectangle 5
      ≠ Outcome.failed Failure.IndexOutOfRange (FractalGenerator.new ℚ) := by
  have h : (FractalGenerator.new ℚ).removeRectangle 5 = Outcome.undefinedBehaviour :=
    removeRectangle_out_of_range _ _ (Or.inr (by simp [FractalGenerator.new, vectorResize]))
  refine ⟨by simp [FractalGenerator.new, vectorResize], h, ?_⟩
  rw [h]
  intro hc
  cases hc

/-- C4, amended: for every index `i < 0` or `i >= size`, `removeRectangle(i)` performs no
bounds check and reports no failure of any kind; the call has undefined behaviour, so no
final state of the collection is guaranteed. -/
theorem C4_removeRectangle_out_of_range_undefined {K : Type} (g : FractalGenerator K)
    (index : Int) (h : index < 0 ∨ (g.rectangles.length : Int) ≤ index) :
    g.removeRectangle index = Outcome.undefinedBehaviour ∧
    ∀ (e : Failure) (s : FractalGenerator K), g.removeRectangle index ≠ Outcome.failed e s := by
  have hu := removeRectangle_out_of_range g index h
  refine ⟨hu, ?_⟩
  intro e s hc
  rw [hu] at hc
  cases hc

/-- Instance of the amended C4 at `index == size` on a three-rectangle generator. -/
theorem C4_removeRectangle_out_of_range_undefined_witness :
    ((3 : Int) < 0 ∨ (sampleGenerator.rectangles.length : Int) ≤ 3) ∧
    sampleGenerator.removeRectangle 3 = Outcome.undefinedBehaviour ∧
    ∀ (e : Failure) (s : FractalGenerator ℚ),
      sampleGenerator.removeRectangle 3 ≠ Outcome.failed e s :=
  ⟨Or.inr (by simp [sampleGenerator]),
    C4_removeRectangle_out_of_range_undefined sampleGenerator 3
      (Or.inr (by simp [sampleGenerator]))⟩

/-- C5, as stated, fails: on the default-constructed generator (5 rectangles)
`setRectangle(5, r)`, the case `index == size`, subscripts the vector past its end. The call
has undefined behaviour; it is not a reported `IndexOutOfRange` that leaves the collection
unmodified. -/
theorem C5_counterexample :
    (FractalGenerator.new ℚ).rectangles.length = 5 ∧
    (FractalGenerator.new ℚ).setRectangle 5 sampleRectangle = Outcome.undefinedBehaviour ∧
    (FractalGenerator.new ℚ).setRectangle 5 sampleRectangle
      ≠ Outcome.failed Failure.IndexOutOfRange (FractalGenerator.new ℚ) := by
  have h : (FractalGenerator.new ℚ).setRectangle 5 sampleRectangle
      = Outcome.undefinedBehaviour :=
    setRectangle_out_of_range _ _ _ (Or.inr (by simp [FractalGenerator.new, vectorResize]))
  refine ⟨by simp [FractalGenerator.new, vectorResize], h, ?_⟩
  rw [h]
  intro hc
  cases hc

/-- C5, amended: for every index `i < 0` or `i >= size` and every rectangle `r`,
`setRectangle(i, r)` performs no bounds check and reports no failure of any kind; the call has
undefined behaviour, so no final state of the collection is guaranteed. -/
theorem C5_setRectangle_out_of_range_undefined {K : Type} (g : FractalGenerator K)
    (index : Int) (rect : Rectangle K)
    (h : index < 0 ∨ (g.rectangles.length : Int) ≤ index) :
    g.setRectangle index rect = Outcome.undefinedBehaviour ∧
    ∀ (e : Failure) (s : FractalGenerator K),
      g.setRectangle index rect ≠ Outcome.failed e s := by
  have hu := setRectangle_out_of_range g index rect h
  refine ⟨hu, ?_⟩
  intro e s hc
  rw [hu] at hc
  cases hc

/-- Instance of the amended C5 at a negative index on a three-rectangle generator. -/
theorem C5_setRectangle_out_of_range_undefined_witness :
    ((-1 : Int) < 0 ∨ (sampleGenerator.rectangles.length : Int) ≤ -1) ∧
    sampleGenerator.setRectangle (-1) sampleRectangle = Outcome.undefinedBehaviour ∧
    ∀ (e : Failure) (s : FractalGenerator ℚ),
      sampleGenerator.setRectangle (-1) sampleRectangle ≠ Outcome.failed e s :=
  ⟨Or.inl (by decide),
    C5_setRectangle_out_of_range_undefined sampleGenerator (-1) sampleRectangle
      (Or.inl (by decide))⟩

/-- C6: for `0 <= i < n`, `removeRectangle(i)` returns with a collection of size `n - 1` in
which every entry at an index `j < i` is the old entry `j` and every entry at an index `j`
with `i <= j < n - 1` is the old entry `j + 1`. -/
theorem C6_removeRectangle_shifts_down {K : Type} (g : FractalGenerator K) (i : Int)
    (h0 : 0 ≤ i) (h1 : i < (g.rectangles.length : Int)) :
    ∃ g1 : FractalGenerator K,
      g.removeRectangle i = Outcome.returned g1 ∧
      g1.rectangles.length = g.rectangles.length - 1 ∧
      (∀ j : Nat, (j : Int) < i →
        g1.rectangles[j]? = g.rectangles[j]? ∧ (g.rectangles[j]?).isSome) ∧
      (∀ j : Nat, i ≤ (j : Int) → j < g.rectangles.length - 1 →
        g1.rectangles[j]? = g.rectangles[j + 1]? ∧ (g.rectangles[j + 1]?).isSome) := by
  refine ⟨{ rectangles := g.rectangles.eraseIdx i.toNat }, ?_, ?_, ?_, ?_⟩
  · unfold FractalGenerator.removeRectangle
    rw [if_pos ⟨h0, h1⟩]
  · exact List.length_eraseIdx_of_lt (by omega)
  · intro j hj
    constructor
    · exact List.getElem?_eraseIdx_of_lt _ _ _ (by omega)
    · rw [List.getElem?_eq_getElem (by omega)]
      rfl
  · intro j hj hlt
    constructor
    · exact List.getElem?_eraseIdx_of_ge _ _ _ (by omega)
    · rw [List.getElem?_eq_getElem (by omega)]
      rfl

/-- Instance of C6: removing index 0 of a three-rectangle generator. -/
theorem C6_removeRectangle_shifts_down_witness :
    ((0 : Int) ≤ 0 ∧ (0 : Int) < (sampleGenerator.rectangles.length : Int)) ∧
    ∃ g1 : FractalGenerator ℚ,
      sampleGenerator.removeRectangle 0 = Outcome.returned g1 ∧
      g1.rectangles.length = sampleGenerator.rectangles.length - 1 ∧
      (∀ j : Nat, (j : Int) < 0 →
        g1.rectangles[j]? = sampleGenerator.rectangles[j]? ∧
          (sampleGenerator.rectangles[j]?).isSome) ∧
      (∀ j : Nat, (0 : Int) ≤ (j : Int) → j < sampleGenerator.rectangles.length - 1 →
        g1.rectangles[j]? = sampleGenerator.rectangles[j + 1]? ∧
          (sampleGenerator.rectangles[j + 1]?).isSome) :=
  ⟨⟨by decide, by simp [sampleGenerator]⟩,
    C6_removeRectangle_shifts_down sampleGenerator 0 (by decide) (by simp [sampleGenerator])⟩

/-- C7: for `0 <= i < n`, `setRectangle(i, r)` returns with a collection that still has size
`n`, whose entry at index `i` is `r`, and whose entry at every index `j != i` is unchanged. -/
theorem C7_setRectangle_replaces_in_place {K : Type} (g : FractalGenerator K) (i : Int)
    (r : Rectangle K) (h0 : 0 ≤ i) (h1 : i < (g.rectangles.length : Int)) :
    ∃ g1 : FractalGenerator K,
      g.setRectangle i r = Outcome.returned g1 ∧
      g1.rectangles.length = g.rectangles.length ∧
      g1.rectangles[i.toNat]? = some r ∧
      (∀ j : Nat, (j : Int) ≠ i → g1.rectangles[j]? = g.rectangles[j]?) := by
  refine ⟨{ rectangles := g.rectangles.set i.toNat r }, ?_, ?_, ?_, ?_⟩
  · unfold FractalGenerator.setRectangle
    rw [if_pos ⟨h0, h1⟩]
  · exact List.length_set _ _ _
  · show (g.rectangles.set i.toNat r)[i.toNat]? = some r
    rw [List.getElem?_set_self]
    omega
  · intro j hj
    show (g.rectangles.set i.toNat r)[j]? = g.rectangles[j]?
    rw [List.getElem?_set_ne]
    omega

/-- Instance of C7: replacing index 1 of a three-rectangle generator. -/
theorem C7_setRectangle_replaces_in_place_witness :
    ((0 : Int) ≤ 1 ∧ (1 : Int) < (sampleGenerator.rectangles.length : Int)) ∧
    ∃ g1 : FractalGenerator ℚ,
      sampleGenerator.setRectangle 1 sampleRectangle = Outcome.returned g1 ∧
      g1.rectangles.length = sampleGenerator.rectangles.length ∧
      g1.rectangles[(1 : Int).toNat]? = some sampleRectangle ∧
      (∀ j : Nat, (j : Int) ≠ 1 → g1.rectangles[j]? = sampleGenerator.rectangles[j]?) :=
  ⟨⟨by decide, by simp [sampleGenerator]⟩,
    C7_setRectangle_replaces_in_place sampleGenerator 1 sampleRectangle (by decide)
      (by simp [sampleGenerator])⟩

/-- C8: `addRectangle(r)` always returns, with a collection of size `n + 1` whose entry at
index `n` is `r` and whose entries at the indices below `n` are the old entries in order
(the old collection is the length-`n` initial segment of the new one). -/
theorem C8_addRectangle_appends {K : Type} (g : FractalGenerator K) (r : Rectangle K) :
    ∃ g1 : FractalGenerator K,
      g.addRectangle r = Outcome.returned g1 ∧
      g1.rectangles.length = g.rectangles.length + 1 ∧
      g1.rectangles[g.rectangles.length]? = some r ∧
      g1.rectangles.take g.rectangles.length = g.rectangles := by
  refine ⟨{ rectangles := g.rectangles ++ [r] }, rfl, ?_, ?_, ?_⟩
  · simp
  · simp
  · simp

/-- C9: a default-constructed `FractalGenerator` holds exactly 5 rectangles and each is the
zero-valued map, with center `(0,0)`, size `(0,0)` and angle `0`. -/
theorem C9_default_construction (K : Type) [Zero K] :
    (FractalGenerator.new K).rectangles.length = 5 ∧
    (FractalGenerator.new K).rectangles
      = List.replicate 5 { center := ⟨0, 0⟩, size := ⟨0, 0⟩, angle := 0 } := by
  constructor
  · simp [FractalGenerator.new, vectorResize]
  · simp [FractalGenerator.new, vectorResize, Rectangle.zero]

/-! ## Generation from the empty working set -/

/-- A round maps the empty working set to itself. -/
theorem generateRound_nil {K : Type} (G : Glm K) (rectangles : List (Rectangle K)) :
    generateRound G rectangles [] = [] := by
  unfold generateRound
  induction rectangles with
  | nil => rfl
  | cons r rs ih => simpa [List.foldl, applyRectangle] using ih

/-- Any number of rounds maps the empty working set to itself. -/
theorem generateLoop_nil {K : Type} (G : Glm K) (rectangles : List (Rectangle K))
    (numIterations : Int) : generateLoop G rectangles numIterations [] = [] :=
  Function.iterate_fixed (generateRound_nil G rectangles) _

/-- C1: for every rectangle collection and every integer `numIterations`,
`generateFractal(numIterations)` returns the empty point sequence, whatever the glm
operations are. -/
theorem C1_generateFractal_returns_empty {K : Type} (G : Glm K) (g : FractalGenerator K)
    (numIterations : Int) : g.generateFractal G numIterations = [] :=
  generateLoop_nil G g.rectangles numIterations

/-! ## The transform built for a rectangle -/

/-- C3, as stated, fails: with the one-map collection (center `(1/2, 0)`, size `(1/2, 1/2)`,
angle `0`), `generateFractal(1)` returns the empty sequence and `generateFractal(2)` returns
the empty sequence, whatever the glm operations are; neither `{(1/2, 0)}` nor `{(3/4, 0)}` is
returned. The function takes no starting set. -/
theorem C3_counterexample :
    (∀ G : Glm ℚ, (scenarioGenerator ℚ).generateFractal G 1 = []) ∧
    (∀ G : Glm ℚ, (scenarioGenerator ℚ).generateFractal G 2 = []) ∧
    (¬ ∃ G : Glm ℚ, (scenarioGenerator ℚ).generateFractal G 1 = [⟨1/2, 0⟩]) ∧
    (¬ ∃ G : Glm ℚ, (scenarioGenerator ℚ).generateFractal G 2 = [⟨3/4, 0⟩]) := by
  refine ⟨fun G => generateLoop_nil G _ _, fun G => generateLoop_nil G _ _, ?_, ?_⟩
  · rintro ⟨G, h⟩
    have h0 : (scenarioGenerator ℚ).generateFractal G 1 = [] := generateLoop_nil G _ _
    rw [h0] at h
    cases h
  · rintro ⟨G, h⟩
    have h0 : (scenarioGenerator ℚ).generateFractal G 2 = [] := generateLoop_nil G _ _
    rw [h0] at h
    cases h

/-- C3, amended: for the one-map collection (center `(1/2, 0)`, size `(1/2, 1/2)`, angle `0`),
`generateFractal`, which takes no starting set and starts from the empty working set, returns
exactly the empty sequence with 1 iteration and with 2 iterations. -/
theorem C3_single_map_generation_is_empty {K : Type} [Field K] (G : Glm K) :
    (scenarioGenerator K).rectangles = [⟨⟨1/2, 0⟩, ⟨1/2, 1/2⟩, 0⟩] ∧
    (scenarioGenerator K).generateFractal G 1 = [] ∧
    (scenarioGenerator K).generateFractal G 2 = [] :=
  ⟨rfl, generateLoop_nil G _ _, generateLoop_nil G _ _⟩

end IFS
